import Mathlib

/-!
Verification of the PlantAI diagnosis derivation pipeline.

Shallow embedding of the diagnosis derivation pipeline of `src/app1.py`
(label decoding, severity staging, recommendation synthesis, record
assembly, and the `/predict` route's session update) and of the
scientific-payload coercion logic of `src/app1.py` (`report` route) and
`src/report_generator.py` (`clean_format`).

Python strings are modelled as Lean `String`/`List Char`; the relevant
Python string primitives (`split('___')`, `replace`, `lower`, substring
`in`, `"<br/>".join`, `str()`, `.title()`) are embedded below.  Python
floats are modelled as exact rationals `ℚ`; `round(x, 2)` is embedded as
round-half-to-even on `x * 100` (Python's rounding mode).  Image
decoding and the neural-network inference are external collaborators:
the pipeline is embedded as a function of the classifier's outputs
(`predicted_idx`, `confidence`) and of the process-wide environment
(model handle loaded or not, class-name list).
-/

namespace PlantAI

/-! ## Python string primitives -/

/-- Does `l` start with `pat`?  (Used to locate the `___` separator
and substring occurrences, as Python's scanner does.) -/
def starts : List Char → List Char → Bool
  | [], _ => true
  | _ :: _, [] => false
  | p :: ps, c :: cs => p == c && starts ps cs

/-- Python's `pat in l` substring test, `hasSub l pat` (contiguous
occurrence anywhere; the empty pattern always matches). -/
def hasSub : List Char → List Char → Bool
  | [], pat => pat.isEmpty
  | c :: rest, pat => starts pat (c :: rest) || hasSub rest pat

/-- The fixed separator `"___"` used by the class labels. -/
def sep3 : List Char := ['_', '_', '_']

/-- Python's `s.split('___')`: scan left to right, cutting at each
occurrence of the (three-character) separator.  Always returns at least
one part. -/
def splitU3 : List Char → List (List Char)
  | [] => [[]]
  | '_' :: '_' :: '_' :: rest => [] :: splitU3 rest
  | c :: rest =>
    match splitU3 rest with
    | [] => [[c]]
    | p :: ps => (c :: p) :: ps

/-- Python's `sub in s` on strings. -/
def pyIn (sub s : String) : Bool := hasSub s.data sub.data

/-- Python's `s.lower()` (ASCII case folding, which covers every label
and keyword in this program). -/
def pyLower (s : String) : String := ⟨s.data.map Char.toLower⟩

/-- Python's `s.replace('_', ' ')`: single-character replacement is a
character map. -/
def pyUnd2Sp (s : String) : String :=
  ⟨s.data.map (fun c => if c == '_' then ' ' else c)⟩

/-- Python's `s.replace(',', '')`: deleting every occurrence of a single
character is a filter. -/
def pyDropCommas (s : String) : String :=
  ⟨s.data.filter (fun c => !(c == ','))⟩

/-- Python's `raw_class.split('___')` at the `String` level. -/
def pySplit3 (s : String) : List String :=
  (splitU3 s.data).map (fun l => String.mk l)

/-! ## Label Decoder — `parse_class_name`, `src/app1.py` lines 63–86 -/

/-- The decoded-label tuple `(plant, condition, category, is_healthy)`
returned by `parse_class_name`. -/
structure DecodedLabel where
  plant : String
  condition : String
  category : String
  is_healthy : Bool
deriving DecidableEq, Repr

/-- Line 65: `parts = raw_class.split('___')`. -/
def pcParts (raw_class : String) : List String := pySplit3 raw_class

/-- Line 66: `plant = parts[0].replace('_', ' ').replace(',', '')`.
`split` never returns an empty list, so indexing `parts[0]` is total. -/
def pcPlant (raw_class : String) : String :=
  pyDropCommas (pyUnd2Sp ((pcParts raw_class).headD ""))

/-- Line 67: `condition = parts[1].replace('_', ' ') if len(parts) > 1
else 'Unknown'`. -/
def pcCondition (raw_class : String) : String :=
  if 1 < (pcParts raw_class).length then pyUnd2Sp ((pcParts raw_class).getD 1 "")
  else "Unknown"

/-- The keyword cascade of lines 69–84, evaluated on
`cond_lower = condition.lower()`; first match wins. -/
def infer_category (cond_lower : String) : String × Bool :=
  if pyIn "healthy" cond_lower then ("Healthy Tissue", true)
  else if pyIn "bacterial" cond_lower || pyIn "spot" cond_lower then
    ("Bacterial Pathogen", false)
  else if pyIn "virus" cond_lower || pyIn "mosaic" cond_lower then
    ("Viral Pathogen", false)
  else if pyIn "rust" cond_lower || pyIn "blight" cond_lower || pyIn "scab" cond_lower then
    ("Fungal Pathogen", false)
  else ("General Pathogen", false)

/-- The decoder `parse_class_name` (lines 63–86). -/
def parse_class_name (raw_class : String) : DecodedLabel :=
  let ci := infer_category (pyLower (pcCondition raw_class))
  { plant := pcPlant raw_class
    condition := pcCondition raw_class
    category := ci.1
    is_healthy := ci.2 }

/-! ## Severity Classifier — the `is_healthy` branch of `predict_image`,
`src/app1.py` lines 110–128 -/

/-- The severity stage and clinical note chosen in lines 110–128.
The diseased branch compares `confidence` against the fixed thresholds
70 and 90 exactly as the source does (`confidence < 70`, then
`70 <= confidence < 90`, else the final stage). -/
def classify_severity (is_healthy : Bool) (confidence : ℚ) : String × String :=
  if is_healthy then
    ("N/A", "Tissue shows no signs of active pathogen colonization.")
  else if confidence < 70 then
    ("Stage 1: Incubation / Early Detection",
     "Minimal necrotic tissue. Pathogen is in early colonization phase.")
  else if 70 ≤ confidence ∧ confidence < 90 then
    ("Stage 2: Active Lesion Progression",
     "Significant pathogen activity. Lesions are expanding.")
  else
    ("Stage 3/4: Advanced Necrosis",
     "Critical tissue damage. High risk of secondary spread.")

/-! ## Recommendation Synthesizer — `src/app1.py` lines 110–135 -/

/-- The recommendation lists of lines 114–118 (healthy) and 130–135
(diseased; the second item interpolates the pathogen category). -/
def synthesize (is_healthy : Bool) (category : String) : List String :=
  if is_healthy then
    ["Continue regular watering and care",
     "Monitor for any changes in appearance",
     "Maintain good air circulation"]
  else
    ["Isolate affected plants immediately",
     "Apply appropriate " ++ category ++ " treatment",
     "Sanitize all tools used on this plant",
     "Remove and safely dispose of heavily infected leaves"]

/-! ## Rounding — Python's `round(confidence, 2)`, line 145 -/

/-- Python's `round` on a rational: round half to even. -/
def pyRoundHalfEven (q : ℚ) : ℤ :=
  let f : ℤ := Rat.floor q
  let frac : ℚ := q - (f : ℚ)
  if frac < 1 / 2 then f
  else if 1 / 2 < frac then f + 1
  else if f % 2 = 0 then f else f + 1

/-- Python's `round(confidence, 2)`. -/
def pyRound2 (confidence : ℚ) : ℚ := (pyRoundHalfEven (confidence * 100) : ℚ) / 100

/-! ## Diagnosis record and the prediction pipeline — `predict_image`,
`src/app1.py` lines 89–147 -/

/-- The dictionary returned by `predict_image` (lines 137–147). -/
structure Diagnosis where
  raw_class : String
  plant_type : String
  condition : String
  pathogen_category : String
  severity_stage : String
  clinical_note : String
  is_healthy : Bool
  confidence : ℚ
  recommendations : List String
deriving DecidableEq, Repr

/-- Assembly of the diagnosis record from the raw class label and the
raw (pre-rounding) confidence, lines 105–147.  The single
`if is_healthy` branch of the source selects stage, note and
recommendations together; `classify_severity` and `synthesize` branch on
the same boolean, so the composition is the same function.  The
confidence is rounded only at the record field (line 145); the severity
comparison of lines 120–128 sees the raw value. -/
def mk_diagnosis (raw_class : String) (confidence : ℚ) : Diagnosis :=
  let d := parse_class_name raw_class
  let sc := classify_severity d.is_healthy confidence
  { raw_class := raw_class
    plant_type := d.plant
    condition := d.condition
    pathogen_category := d.category
    severity_stage := sc.1
    clinical_note := sc.2
    is_healthy := d.is_healthy
    confidence := pyRound2 confidence
    recommendations := synthesize d.is_healthy d.category }

/-- The pipeline `predict_image` (lines 89–147) as a function of the classifier
outputs and the process environment.  `model is None` ⟶
`model_loaded = false` raises `ValueError("Model not loaded")`
(lines 90–91); the class-label lookup falls back to `"Unknown"` when the
predicted index is out of bounds (line 105). -/
def predict_image (model_loaded : Bool) (cls : List String)
    (predicted_idx : Nat) (confidence : ℚ) : Except String Diagnosis :=
  if model_loaded = false then Except.error "Model not loaded"
  else
    Except.ok (mk_diagnosis
      (if predicted_idx < cls.length then cls.getD predicted_idx "" else "Unknown")
      confidence)

/-- The `/predict` route handler (lines 175–194) restricted to its
session effect: on success the session's prediction record is
overwritten with the fresh diagnosis; on an exception the handler
returns an error response and the session is left unchanged. -/
def predict_route (model_loaded : Bool) (cls : List String)
    (predicted_idx : Nat) (confidence : ℚ) (sess : Option Diagnosis) :
    Option Diagnosis × Except String Unit :=
  match predict_image model_loaded cls predicted_idx confidence with
  | Except.ok p => (some p, Except.ok ())
  | Except.error e => (sess, Except.error e)

/-! ## Scientific payload values — the JSON-shaped data returned by the
LLM, consumed by the `report` route (`src/app1.py` lines 224–230) and by
`clean_format` (`src/report_generator.py` lines 28–36) -/

/-- A Python value of the shapes the payload handling distinguishes:
string, list, dict, or `None`. -/
inductive PyVal where
  | str : String → PyVal
  | list : List PyVal → PyVal
  | dict : List (String × PyVal) → PyVal
  | none : PyVal

mutual

/-- Python's `repr` on these values, as used inside `str()` of a list or
dict (`'` is `\x27`, `{`/`}` are `\x7b`/`\x7d`). -/
def pyRepr : PyVal → String
  | PyVal.str s => "\x27" ++ s ++ "\x27"
  | PyVal.none => "None"
  | PyVal.list items => "[" ++ pyReprList items ++ "]"
  | PyVal.dict kvs => "\x7b" ++ pyReprDict kvs ++ "\x7d"

/-- Comma-separated `repr`s of the elements of a list. -/
def pyReprList : List PyVal → String
  | [] => ""
  | [v] => pyRepr v
  | v :: rest => pyRepr v ++ ", " ++ pyReprList rest

/-- Comma-separated `repr`s of the entries of a dict. -/
def pyReprDict : List (String × PyVal) → String
  | [] => ""
  | [(k, v)] => "\x27" ++ k ++ "\x27: " ++ pyRepr v
  | (k, v) :: rest => "\x27" ++ k ++ "\x27: " ++ pyRepr v ++ ", " ++ pyReprDict rest

end

/-- Python's `str()` on these values: a string is returned bare, any
other shape through its `repr`. -/
def pyStr : PyVal → String
  | PyVal.str s => s
  | v => pyRepr v

/-- Python's `'<br/>'.join(items)` on a list of strings. -/
def pyJoinBr : List String → String
  | [] => ""
  | [s] => s
  | s :: rest => s ++ "<br/>" ++ pyJoinBr rest

/-- Python's `sep.join` raises `TypeError` on a non-string element; the
embedded join reports that as an error value. -/
def pyStrJoinBr : List PyVal → Except String String
  | [] => Except.ok ""
  | [PyVal.str s] => Except.ok s
  | PyVal.str s :: rest => (pyStrJoinBr rest).map (fun r => s ++ "<br/>" ++ r)
  | _ => Except.error "TypeError: sequence item: expected str instance"

/-- The per-key coercion of the `report` route (`src/app1.py` lines
225–230): `val = sci_data.get(key, "N/A")`, then a list is joined with
`"<br/>"`, `None` becomes `"N/A"`, anything else is left unchanged. -/
def coerce_sci_value (val : PyVal) : Except String PyVal :=
  match val with
  | PyVal.list items => (pyStrJoinBr items).map PyVal.str
  | PyVal.none => Except.ok (PyVal.str "N/A")
  | v => Except.ok v

/-- Python's `str.title()`: the first character of each maximal run of
letters is uppercased, the rest lowercased. -/
def pyTitleGo : Bool → List Char → List Char
  | _, [] => []
  | prevAlpha, c :: rest =>
    (if c.isAlpha then (if prevAlpha then c.toLower else c.toUpper) else c) ::
      pyTitleGo c.isAlpha rest

/-- Python's `s.title()`. -/
def pyTitle (s : String) : String := ⟨pyTitleGo false s.data⟩

/-- The three characters stripped by `clean_format`'s string branch
(`{`, `}`, `'`). -/
def strippedChars : List Char := [Char.ofNat 123, Char.ofNat 125, Char.ofNat 39]

/-- The string-branch cleanup of `src/report_generator.py` line 35:
`str(content)` with every open brace, close brace and single-quote
character removed.  Deleting single characters is a filter, and the
three deletions are independent. -/
def pyCleanStr (s : String) : String :=
  ⟨s.data.filter (fun c => !(strippedChars.contains c))⟩

/-- The helper `clean_format` (`src/report_generator.py` lines 28–36): a dict is
rendered as bold bulleted `key: value` lines, a list as bulleted
`str(i)` lines, anything else as its cleaned `str()`. -/
def clean_format (content : PyVal) : String :=
  match content with
  | PyVal.dict kvs =>
    String.join (kvs.map (fun kv =>
      "<b>• " ++ pyTitle (pyUnd2Sp kv.1) ++ ":</b> " ++ pyStr kv.2 ++ "<br/>"))
  | PyVal.list items =>
    String.join (items.map (fun i => "• " ++ pyStr i ++ "<br/>"))
  | c => pyCleanStr (pyStr c)

/-! ## Supporting lemmas -/

/-- Splitting a substring test at the head of the list. -/
lemma hasSub_cons_false {c : Char} {rest pat : List Char}
    (h : hasSub (c :: rest) pat = false) :
    starts pat (c :: rest) = false ∧ hasSub rest pat = false := by
  simpa [hasSub, Bool.or_eq_false_iff] using h

/-- A list with no occurrence of the separator splits into itself. -/
lemma splitU3_no_sep : ∀ l : List Char, hasSub l sep3 = false → splitU3 l = [l] := by
  intro l h
  induction l with
  | nil => rfl
  | cons c rest ih =>
    obtain ⟨hst, hrest⟩ := hasSub_cons_false h
    rw [splitU3.eq_def]
    split
    · rename_i heq; exact absurd heq (by simp)
    · rename_i heq
      rw [heq] at hst
      simp [starts, sep3] at hst
    · rename_i heq
      injection heq with h1 h2
      subst h1; subst h2
      rw [ih hrest]

/-- A raw label without the separator decodes with condition
`"Unknown"`. -/
lemma pcCondition_no_sep (s : String) (h : pyIn "___" s = false) :
    pcCondition s = "Unknown" := by
  have h3 : ("___" : String).data = sep3 := rfl
  have hs : splitU3 s.data = [s.data] := splitU3_no_sep s.data (by rw [← h3]; exact h)
  simp [pcCondition, pcParts, pySplit3, hs]

/-- Projection of the decoder's condition field. -/
lemma parse_condition (s : String) :
    (parse_class_name s).condition = pcCondition s := rfl

/-- Projection of the decoder's category field. -/
lemma parse_category (s : String) :
    (parse_class_name s).category = (infer_category (pyLower (pcCondition s))).1 := rfl

/-- Projection of the decoder's health flag. -/
lemma parse_is_healthy (s : String) :
    (parse_class_name s).is_healthy = (infer_category (pyLower (pcCondition s))).2 := rfl

/-- Projection of the assembled record's severity stage. -/
lemma mk_diagnosis_stage (raw : String) (conf : ℚ) :
    (mk_diagnosis raw conf).severity_stage =
      (classify_severity (parse_class_name raw).is_healthy conf).1 := rfl

/-- Projection of the assembled record's clinical note. -/
lemma mk_diagnosis_note (raw : String) (conf : ℚ) :
    (mk_diagnosis raw conf).clinical_note =
      (classify_severity (parse_class_name raw).is_healthy conf).2 := rfl

/-- Projection of the assembled record's health flag. -/
lemma mk_diagnosis_is_healthy (raw : String) (conf : ℚ) :
    (mk_diagnosis raw conf).is_healthy = (parse_class_name raw).is_healthy := rfl

/-- Projection of the assembled record's category. -/
lemma mk_diagnosis_category (raw : String) (conf : ℚ) :
    (mk_diagnosis raw conf).pathogen_category = (parse_class_name raw).category := rfl

/-- Projection of the assembled record's recommendations. -/
lemma mk_diagnosis_recs (raw : String) (conf : ℚ) :
    (mk_diagnosis raw conf).recommendations =
      synthesize (parse_class_name raw).is_healthy (parse_class_name raw).category := rfl

/-- Projection of the assembled record's stored confidence. -/
lemma mk_diagnosis_confidence (raw : String) (conf : ℚ) :
    (mk_diagnosis raw conf).confidence = pyRound2 conf := rfl

/-- Characterisation of a successful pipeline run. -/
lemma predict_image_ok_iff {ml : Bool} {cls : List String} {idx : Nat}
    {conf : ℚ} {d : Diagnosis} :
    predict_image ml cls idx conf = Except.ok d ↔
      ml = true ∧
        mk_diagnosis (if idx < cls.length then cls.getD idx "" else "Unknown") conf = d := by
  cases ml <;> simp [predict_image]

/-- On diseased tissue the severity stage is never the healthy
placeholder and the note is never the healthy note. -/
lemma classify_severity_false_ne (c : ℚ) :
    (classify_severity false c).1 ≠ "N/A" ∧
      (classify_severity false c).2 ≠
        "Tissue shows no signs of active pathogen colonization." := by
  unfold classify_severity
  split
  · simp_all
  · split
    · exact ⟨by decide, by decide⟩
    · split
      · exact ⟨by decide, by decide⟩
      · exact ⟨by decide, by decide⟩

/-- Joining a list of strings with the embedded `TypeError`-aware join
succeeds and agrees with the plain join. -/
lemma pyStrJoinBr_strings : ∀ strs : List String,
    pyStrJoinBr (strs.map PyVal.str) = Except.ok (pyJoinBr strs)
  | [] => rfl
  | [_] => rfl
  | s :: s2 :: rest => by
    have ih := pyStrJoinBr_strings (s2 :: rest)
    show (pyStrJoinBr (PyVal.str s2 :: rest.map PyVal.str)).map
        (fun r => s ++ "<br/>" ++ r) = Except.ok (pyJoinBr (s :: s2 :: rest))
    rw [show PyVal.str s2 :: rest.map PyVal.str = (s2 :: rest).map PyVal.str from rfl, ih]
    rfl

/-- Python's `str` is the identity on strings. -/
lemma pyStr_str (s : String) : pyStr (PyVal.str s) = s := rfl

/-! ## Claims -/

/-- C1: for non-healthy input the severity classification partitions the
confidence by the two thresholds 70 and 90 with lower-closed boundaries
(`< 70` is Stage 1, `70 ≤ · < 90` is Stage 2, `≥ 90` is Stage 3/4), each
stage paired with its fixed clinical note; in particular 69.99 is
Stage 1, 70 is Stage 2, 89.99 is Stage 2 and 90 is Stage 3/4. -/
theorem severity_stage_thresholds :
    (∀ c : ℚ, c < 70 → classify_severity false c =
      ("Stage 1: Incubation / Early Detection",
       "Minimal necrotic tissue. Pathogen is in early colonization phase.")) ∧
    (∀ c : ℚ, 70 ≤ c → c < 90 → classify_severity false c =
      ("Stage 2: Active Lesion Progression",
       "Significant pathogen activity. Lesions are expanding.")) ∧
    (∀ c : ℚ, 90 ≤ c → classify_severity false c =
      ("Stage 3/4: Advanced Necrosis",
       "Critical tissue damage. High risk of secondary spread.")) ∧
    classify_severity false (69.99 : ℚ) =
      ("Stage 1: Incubation / Early Detection",
       "Minimal necrotic tissue. Pathogen is in early colonization phase.") ∧
    classify_severity false (70 : ℚ) =
      ("Stage 2: Active Lesion Progression",
       "Significant pathogen activity. Lesions are expanding.") ∧
    classify_severity false (89.99 : ℚ) =
      ("Stage 2: Active Lesion Progression",
       "Significant pathogen activity. Lesions are expanding.") ∧
    classify_severity false (90 : ℚ) =
      ("Stage 3/4: Advanced Necrosis",
       "Critical tissue damage. High risk of secondary spread.") := by
  refine ⟨fun c h => ?_, fun c h1 h2 => ?_, fun c h => ?_, ?_, ?_, ?_, ?_⟩
  · simp [classify_severity, h]
  · simp [classify_severity, not_lt.mpr h1, h1, h2]
  · have h1 : ¬ c < 70 := not_lt.mpr (le_trans (by norm_num) h)
    have h2 : ¬ (70 ≤ c ∧ c < 90) := fun hh => absurd h (not_le.mpr hh.2)
    simp [classify_severity, h1, h2]
  · norm_num [classify_severity]
  · norm_num [classify_severity]
  · norm_num [classify_severity]
  · norm_num [classify_severity]

/-- Witness for C1: the three threshold cases instantiated at the
concrete confidences 50, 80 and 95. -/
theorem severity_stage_thresholds_check :
    classify_severity false (50 : ℚ) =
      ("Stage 1: Incubation / Early Detection",
       "Minimal necrotic tissue. Pathogen is in early colonization phase.") ∧
    classify_severity false (80 : ℚ) =
      ("Stage 2: Active Lesion Progression",
       "Significant pathogen activity. Lesions are expanding.") ∧
    classify_severity false (95 : ℚ) =
      ("Stage 3/4: Advanced Necrosis",
       "Critical tissue damage. High risk of secondary spread.") :=
  ⟨severity_stage_thresholds.1 50 (by norm_num),
   severity_stage_thresholds.2.1 80 (by norm_num) (by norm_num),
   severity_stage_thresholds.2.2.1 95 (by norm_num)⟩

/-- C2: whenever the decoded condition contains the substring
`"healthy"` after lowercasing, the decoder returns category
`"Healthy Tissue"` and `is_healthy = true`, regardless of any other
keyword in the condition — the healthy check is evaluated first. -/
theorem healthy_keyword_wins (s : String)
    (h : pyIn "healthy" (pyLower (parse_class_name s).condition) = true) :
    (parse_class_name s).category = "Healthy Tissue" ∧
      (parse_class_name s).is_healthy = true := by
  rw [parse_condition] at h
  rw [parse_category, parse_is_healthy]
  unfold infer_category
  rw [if_pos h]
  exact ⟨rfl, rfl⟩

/-- Witness for C2: a label whose condition contains both `"Healthy"`
(mixed case) and the bacterial keyword `"spot"` still decodes as healthy
tissue. -/
theorem healthy_keyword_wins_check :
    pyIn "spot" (pyLower (parse_class_name "Tomato___Healthy_leaf_spot").condition) = true ∧
    (parse_class_name "Tomato___Healthy_leaf_spot").category = "Healthy Tissue" ∧
    (parse_class_name "Tomato___Healthy_leaf_spot").is_healthy = true :=
  ⟨by decide, healthy_keyword_wins "Tomato___Healthy_leaf_spot" (by decide)⟩

/-- C3 counterexample: with raw confidence 89.999 the stored confidence
rounds to 90.0, yet the record's severity stage is Stage 2 (computed on
the raw value), while staging the stored (rounded) confidence 90.0 would
give Stage 3/4 — so the confidence is not rounded before the severity
classification stage runs, and the stored stage differs from the stage
of the stored confidence. -/
theorem rounding_before_staging_cex :
    predict_image true ["Tomato___Late_blight"] 0 (89.999 : ℚ) =
      Except.ok (mk_diagnosis "Tomato___Late_blight" (89.999 : ℚ)) ∧
    (mk_diagnosis "Tomato___Late_blight" (89.999 : ℚ)).confidence = 90 ∧
    (mk_diagnosis "Tomato___Late_blight" (89.999 : ℚ)).severity_stage =
      "Stage 2: Active Lesion Progression" ∧
    (classify_severity (mk_diagnosis "Tomato___Late_blight" (89.999 : ℚ)).is_healthy
        (mk_diagnosis "Tomato___Late_blight" (89.999 : ℚ)).confidence).1 =
      "Stage 3/4: Advanced Necrosis" ∧
    (mk_diagnosis "Tomato___Late_blight" (89.999 : ℚ)).severity_stage ≠
      (classify_severity (mk_diagnosis "Tomato___Late_blight" (89.999 : ℚ)).is_healthy
        (mk_diagnosis "Tomato___Late_blight" (89.999 : ℚ)).confidence).1 := by
  have hh : (parse_class_name "Tomato___Late_blight").is_healthy = false := by decide
  have hconf : (mk_diagnosis "Tomato___Late_blight" (89.999 : ℚ)).confidence = 90 := by
    rw [mk_diagnosis_confidence]
    norm_num [pyRound2, pyRoundHalfEven, Rat.floor]
  have hstage : (mk_diagnosis "Tomato___Late_blight" (89.999 : ℚ)).severity_stage =
      "Stage 2: Active Lesion Progression" := by
    rw [mk_diagnosis_stage, hh]
    norm_num [classify_severity]
  have h34 : (classify_severity false (90 : ℚ)).1 = "Stage 3/4: Advanced Necrosis" := by
    norm_num [classify_severity]
  have hisH : (mk_diagnosis "Tomato___Late_blight" (89.999 : ℚ)).is_healthy = false :=
    (mk_diagnosis_is_healthy _ _).trans hh
  refine ⟨rfl, hconf, hstage, ?_, ?_⟩
  · rw [hisH, hconf, h34]
  · rw [hstage, hisH, hconf, h34]
    decide

/-- C3 as amended: the stored confidence is `round(confidence, 2)`, but
the severity stage and clinical note stored in the record are the ones
obtained from the raw (pre-rounding) confidence. -/
theorem severity_uses_raw_confidence :
    ∀ (ml : Bool) (cls : List String) (idx : Nat) (conf : ℚ) (d : Diagnosis),
      predict_image ml cls idx conf = Except.ok d →
      d.confidence = pyRound2 conf ∧
      d.severity_stage = (classify_severity d.is_healthy conf).1 ∧
      d.clinical_note = (classify_severity d.is_healthy conf).2 := by
  intro ml cls idx conf d h
  rw [predict_image_ok_iff] at h
  obtain ⟨-, rfl⟩ := h
  exact ⟨rfl, rfl, rfl⟩

/-- Witness for C3 (amended): the raw-confidence staging relation at a
concrete successful run. -/
theorem severity_uses_raw_confidence_check :
    (mk_diagnosis "Apple___Apple_scab" (50 : ℚ)).confidence = pyRound2 50 ∧
    (mk_diagnosis "Apple___Apple_scab" (50 : ℚ)).severity_stage =
      (classify_severity (mk_diagnosis "Apple___Apple_scab" (50 : ℚ)).is_healthy 50).1 :=
  ⟨(severity_uses_raw_confidence true ["Apple___Apple_scab"] 0 50
      (mk_diagnosis "Apple___Apple_scab" (50 : ℚ)) rfl).1,
   (severity_uses_raw_confidence true ["Apple___Apple_scab"] 0 50
      (mk_diagnosis "Apple___Apple_scab" (50 : ℚ)) rfl).2.1⟩

/-- C4: the decoder never fails — an input without the triple-underscore
separator yields condition `"Unknown"`, category `"General Pathogen"`
and `is_healthy = false`; and an out-of-bounds predicted index does not
fail either: the pipeline substitutes the label `"Unknown"` and
continues to a complete diagnosis with the same fallback fields. -/
theorem decoder_and_lookup_never_fail :
    (∀ s : String, pyIn "___" s = false →
      (parse_class_name s).condition = "Unknown" ∧
      (parse_class_name s).category = "General Pathogen" ∧
      (parse_class_name s).is_healthy = false) ∧
    (∀ (cls : List String) (idx : Nat) (conf : ℚ), cls.length ≤ idx →
      predict_image true cls idx conf = Except.ok (mk_diagnosis "Unknown" conf) ∧
      (mk_diagnosis "Unknown" conf).raw_class = "Unknown" ∧
      (mk_diagnosis "Unknown" conf).condition = "Unknown" ∧
      (mk_diagnosis "Unknown" conf).pathogen_category = "General Pathogen") := by
  constructor
  · intro s h
    have hc : pcCondition s = "Unknown" := pcCondition_no_sep s h
    rw [parse_condition, parse_category, parse_is_healthy, hc]
    exact ⟨rfl, by decide, by decide⟩
  · intro cls idx conf h
    have hni : ¬ idx < cls.length := not_lt.mpr h
    refine ⟨by simp [predict_image, hni], rfl, ?_, ?_⟩
    · exact (by decide : (parse_class_name "Unknown").condition = "Unknown")
    · exact (by decide : (parse_class_name "Unknown").category = "General Pathogen")

/-- Witness for C4: a separator-free garbage label decodes to the
fallback fields, and an out-of-range index (7 against a 1-element class
list) still produces a complete diagnosis for label `"Unknown"`. -/
theorem decoder_and_lookup_never_fail_check :
    ((parse_class_name "no separator here").condition = "Unknown" ∧
     (parse_class_name "no separator here").category = "General Pathogen" ∧
     (parse_class_name "no separator here").is_healthy = false) ∧
    (predict_image true ["Apple___Apple_scab"] 7 (55 : ℚ) =
       Except.ok (mk_diagnosis "Unknown" (55 : ℚ)) ∧
     (mk_diagnosis "Unknown" (55 : ℚ)).raw_class = "Unknown" ∧
     (mk_diagnosis "Unknown" (55 : ℚ)).condition = "Unknown" ∧
     (mk_diagnosis "Unknown" (55 : ℚ)).pathogen_category = "General Pathogen") :=
  ⟨decoder_and_lookup_never_fail.1 "no separator here" (by decide),
   decoder_and_lookup_never_fail.2 ["Apple___Apple_scab"] 7 55 (by decide)⟩

/-- C5: the pipeline fails hard exactly when the model handle is
uninitialized, and on that failure the route handler returns an error
response and leaves the session's prediction record unchanged. -/
theorem model_unavailable_hard_failure :
    ∀ (ml : Bool) (cls : List String) (idx : Nat) (conf : ℚ) (sess : Option Diagnosis),
      ((∃ e, predict_image ml cls idx conf = Except.error e) ↔ ml = false) ∧
      (ml = false →
        predict_image ml cls idx conf = Except.error "Model not loaded" ∧
        predict_route ml cls idx conf sess = (sess, Except.error "Model not loaded")) := by
  intro ml cls idx conf sess
  cases ml
  · exact ⟨⟨fun _ => rfl, fun _ => ⟨"Model not loaded", rfl⟩⟩, fun _ => ⟨rfl, rfl⟩⟩
  · constructor
    · constructor
      · rintro ⟨e, he⟩
        simp [predict_image] at he
      · intro h
        exact absurd h (by simp)
    · intro h
      exact absurd h (by simp)

/-- Witness for C5: an unloaded model with a populated session — the
route returns the error and the stored record is untouched. -/
theorem model_unavailable_hard_failure_check :
    predict_route false ["Apple___Apple_scab"] 0 (50 : ℚ)
        (some (mk_diagnosis "Apple___Apple_scab" (95 : ℚ))) =
      (some (mk_diagnosis "Apple___Apple_scab" (95 : ℚ)),
       Except.error "Model not loaded") :=
  ((model_unavailable_hard_failure false ["Apple___Apple_scab"] 0 50
      (some (mk_diagnosis "Apple___Apple_scab" (95 : ℚ)))).2 rfl).2

/-- C6: the known label `"Apple___Apple_scab"` decodes to plant
`"Apple"`, condition `"Apple scab"` (underscore replaced by a space),
category `"Fungal Pathogen"` via the `"scab"` keyword, and
`is_healthy = false`. -/
theorem decode_apple_scab :
    parse_class_name "Apple___Apple_scab" =
      { plant := "Apple", condition := "Apple scab",
        category := "Fungal Pathogen", is_healthy := false } := by
  decide

/-- C7: for every category the diseased recommendation list has exactly
4 items in a fixed order — isolation first, then the
category-parameterized treatment item, then the two invariant items —
and for `"Fungal Pathogen"` the second item contains that category as a
substring. -/
theorem diseased_recommendations_shape :
    ∀ category : String,
      (synthesize false category).length = 4 ∧
      synthesize false category =
        ["Isolate affected plants immediately",
         "Apply appropriate " ++ category ++ " treatment",
         "Sanitize all tools used on this plant",
         "Remove and safely dispose of heavily infected leaves"] ∧
      (synthesize false "Fungal Pathogen").getD 1 "" =
        "Apply appropriate Fungal Pathogen treatment" ∧
      pyIn "Fungal Pathogen" ((synthesize false "Fungal Pathogen").getD 1 "") = true := by
  intro category
  exact ⟨rfl, rfl, by decide, by decide⟩

/-- C8: the diagnosis pipeline is deterministic — identical inputs give
identical results, equal in every field of the produced record. -/
theorem diagnosis_deterministic :
    ∀ (ml ml' : Bool) (cls cls' : List String) (idx idx' : Nat) (conf conf' : ℚ),
      ml = ml' → cls = cls' → idx = idx' → conf = conf' →
      predict_image ml cls idx conf = predict_image ml' cls' idx' conf' ∧
      ∀ d d' : Diagnosis,
        predict_image ml cls idx conf = Except.ok d →
        predict_image ml' cls' idx' conf' = Except.ok d' →
        d.raw_class = d'.raw_class ∧ d.plant_type = d'.plant_type ∧
        d.condition = d'.condition ∧ d.pathogen_category = d'.pathogen_category ∧
        d.severity_stage = d'.severity_stage ∧ d.clinical_note = d'.clinical_note ∧
        d.is_healthy = d'.is_healthy ∧ d.confidence = d'.confidence ∧
        d.recommendations = d'.recommendations := by
  intro ml ml' cls cls' idx idx' conf conf' h1 h2 h3 h4
  subst h1; subst h2; subst h3; subst h4
  refine ⟨rfl, fun d d' hd hd' => ?_⟩
  rw [hd] at hd'
  obtain rfl := Except.ok.inj hd'
  exact ⟨rfl, rfl, rfl, rfl, rfl, rfl, rfl, rfl, rfl⟩

/-- Witness for C8: two identical concrete invocations agree. -/
theorem diagnosis_deterministic_check :
    predict_image true ["Apple___Apple_scab"] 0 (50 : ℚ) =
      predict_image true ["Apple___Apple_scab"] 0 (50 : ℚ) :=
  (diagnosis_deterministic true true ["Apple___Apple_scab"] ["Apple___Apple_scab"]
    0 0 50 50 rfl rfl rfl rfl).1

/-- C9 counterexample: the report route's coercion does not turn every
list-valued field into a joined string and can raise — for the list
`[None]` the embedded `"<br/>".join` of `src/app1.py` line 228 raises
`TypeError` (the route's surrounding `try`/`except` then discards the
whole payload and substitutes the fallback dict, so the field is never
coerced to a joined string), while `clean_format` handles that same
list without raising. -/
theorem sci_list_coercion_raises_cex :
    coerce_sci_value (PyVal.list [PyVal.none]) =
      Except.error "TypeError: sequence item: expected str instance" ∧
    clean_format (PyVal.list [PyVal.none]) = "• None<br/>" :=
  ⟨rfl, rfl⟩

/-- C9 as amended: a scientific-payload field that is a list **of
strings** is coerced to a single `"<br/>"`-joined string by the report
route, `None` becomes `"N/A"`, strings and dicts pass through unchanged
— the route coercion raises no error for those shapes (a list with a
non-string item instead makes the join raise `TypeError`, which the
route's outer `try`/`except` catches, discarding the payload) — and
`clean_format` renders every list, whatever its items, as bulleted
`str(i)` lines without raising. -/
theorem sci_payload_coercion :
    (∀ strs : List String,
      coerce_sci_value (PyVal.list (strs.map PyVal.str)) =
        Except.ok (PyVal.str (pyJoinBr strs))) ∧
    coerce_sci_value PyVal.none = Except.ok (PyVal.str "N/A") ∧
    (∀ s : String, coerce_sci_value (PyVal.str s) = Except.ok (PyVal.str s)) ∧
    (∀ kvs : List (String × PyVal),
      coerce_sci_value (PyVal.dict kvs) = Except.ok (PyVal.dict kvs)) ∧
    (∀ strs : List String,
      clean_format (PyVal.list (strs.map PyVal.str)) =
        String.join (strs.map (fun s => "• " ++ s ++ "<br/>"))) ∧
    (∀ items : List PyVal,
      clean_format (PyVal.list items) =
        String.join (items.map (fun i => "• " ++ pyStr i ++ "<br/>"))) := by
  refine ⟨fun strs => ?_, rfl, fun s => rfl, fun kvs => rfl, fun strs => ?_, fun items => rfl⟩
  · show (pyStrJoinBr (strs.map PyVal.str)).map PyVal.str =
      Except.ok (PyVal.str (pyJoinBr strs))
    rw [pyStrJoinBr_strings strs]
    rfl
  · simp only [clean_format, List.map_map]
    congr 1

/-- C10: in every record the pipeline produces, the severity stage is
`"N/A"` exactly when `is_healthy` is true; a healthy record carries the
healthy note and the fixed 3-item care list, a diseased record never
carries `"N/A"` or the healthy note and carries the 4-item treatment
list parameterized by its own category. -/
theorem stage_na_iff_healthy :
    ∀ (ml : Bool) (cls : List String) (idx : Nat) (conf : ℚ) (d : Diagnosis),
      predict_image ml cls idx conf = Except.ok d →
      ((d.severity_stage = "N/A") ↔ d.is_healthy = true) ∧
      (d.is_healthy = true →
        d.clinical_note = "Tissue shows no signs of active pathogen colonization." ∧
        d.recommendations =
          ["Continue regular watering and care",
           "Monitor for any changes in appearance",
           "Maintain good air circulation"]) ∧
      (d.is_healthy = false →
        d.severity_stage ≠ "N/A" ∧
        d.clinical_note ≠ "Tissue shows no signs of active pathogen colonization." ∧
        d.recommendations =
          ["Isolate affected plants immediately",
           "Apply appropriate " ++ d.pathogen_category ++ " treatment",
           "Sanitize all tools used on this plant",
           "Remove and safely dispose of heavily infected leaves"]) := by
  intro ml cls idx conf d h
  rw [predict_image_ok_iff] at h
  obtain ⟨-, rfl⟩ := h
  set raw := (if idx < cls.length then cls.getD idx "" else "Unknown") with hraw
  rw [mk_diagnosis_stage, mk_diagnosis_note, mk_diagnosis_is_healthy,
    mk_diagnosis_recs, mk_diagnosis_category]
  cases hb : (parse_class_name raw).is_healthy
  · refine ⟨?_, ?_, ?_⟩
    · simp [(classify_severity_false_ne conf).1]
    · intro hcontra; exact absurd hcontra (by simp)
    · intro _
      exact ⟨(classify_severity_false_ne conf).1,
        (classify_severity_false_ne conf).2, rfl⟩
  · refine ⟨?_, ?_, ?_⟩
    · simp [classify_severity]
    · intro _
      exact ⟨rfl, rfl⟩
    · intro hcontra; exact absurd hcontra (by simp)

/-- Witness for C10: the healthy/diseased consistency at two concrete
successful runs, one healthy label and one diseased label. -/
theorem stage_na_iff_healthy_check :
    ((mk_diagnosis "Tomato___healthy" (95 : ℚ)).severity_stage = "N/A" ↔
      (mk_diagnosis "Tomato___healthy" (95 : ℚ)).is_healthy = true) ∧
    ((mk_diagnosis "Apple___Apple_scab" (95 : ℚ)).severity_stage = "N/A" ↔
      (mk_diagnosis "Apple___Apple_scab" (95 : ℚ)).is_healthy = true) :=
  ⟨(stage_na_iff_healthy true ["Tomato___healthy"] 0 95
      (mk_diagnosis "Tomato___healthy" (95 : ℚ)) rfl).1,
   (stage_na_iff_healthy true ["Apple___Apple_scab"] 0 95
      (mk_diagnosis "Apple___Apple_scab" (95 : ℚ)) rfl).1⟩

end PlantAI
